import Mathlib

/-!
Verification development for the shellsidekick core: prompt detection,
security classification, pattern learning and input inference, modelled as a
shallow embedding of `src/shellsidekick` (detector.py, inference.py,
patterns.py, security.py, storage.py, monitor.py, file_utils.py and the
models).  Text is modelled as `List Char` / `String` (ASCII semantics for the
case-insensitive regex sets, which is the character range exercised by the
code and its tests), confidences as `ℚ`, wall-clock datetimes as abstract
`Nat` ticks.
-/

set_option maxRecDepth 10000

/-- Python `\s` (ASCII range): space, tab, newline, CR, FF, VT. -/
def isSpaceCh (c : Char) : Bool :=
  c = ' ' || c = '\t' || c = '\n' || c = '\r' || c = Char.ofNat 12 || c = Char.ofNat 11

/-- ASCII decimal digit. -/
def isDigitCh (c : Char) : Bool :=
  '0' ≤ c && c ≤ '9'

/-- ASCII letter. -/
def isLetterCh (c : Char) : Bool :=
  ('a' ≤ c && c ≤ 'z') || ('A' ≤ c && c ≤ 'Z')

/-- Python `\w` (ASCII range): letters, digits, underscore. -/
def isWordCh (c : Char) : Bool :=
  isLetterCh c || isDigitCh c || c = '_'

/-- Case-insensitive character comparison (`re.IGNORECASE`, ASCII). -/
def ciEq (a b : Char) : Bool :=
  a.toLower = b.toLower

/-- `str.strip()`: drop leading and trailing whitespace. -/
def stripChars (cs : List Char) : List Char :=
  ((cs.dropWhile isSpaceCh).reverse.dropWhile isSpaceCh).reverse

/-- `str.lower()` on a Lean string (ASCII). -/
def lowerStr (s : String) : String :=
  ⟨s.data.map Char.toLower⟩

/-- `str.strip()` on a Lean string. -/
def stripStr (s : String) : String :=
  ⟨stripChars s.data⟩

/-! ### Matcher combinators

A matcher consumes a prefix of the input and returns the consumed characters
(in original case, like `match.group(0)`) together with the rest.  Each regex
of the source is hand-compiled to a matcher; the greedy quantifiers of those
regexes never need backtracking because every `\s*`/`\s+`/`\d+`/`\w+` run is
followed by a character that cannot belong to the run's class. -/

/-- A matcher: consumed characters and remaining input, if the pattern
matches at the start of the input. -/
def Mt : Type := List Char → Option (List Char × List Char)

/-- Worker for the case-insensitive literal matcher. -/
def mlitGo : List Char → List Char → List Char → Option (List Char × List Char)
  | [], rest, acc => some (acc.reverse, rest)
  | _ :: _, [], _ => none
  | p :: ps, c :: rest, acc => if ciEq p c then mlitGo ps rest (c :: acc) else none

/-- Case-insensitive literal. -/
def mlit (s : String) : Mt := fun cs =>
  mlitGo s.data cs []

/-- Single character satisfying a predicate. -/
def mch (p : Char → Bool) : Mt := fun cs =>
  match cs with
  | [] => none
  | c :: rest => if p c then some ([c], rest) else none

/-- Greedy star over a character class. -/
def mstar (p : Char → Bool) : Mt := fun cs =>
  some (cs.takeWhile p, cs.dropWhile p)

/-- Greedy plus over a character class. -/
def mplus1 (p : Char → Bool) : Mt := fun cs =>
  match cs with
  | [] => none
  | c :: _ => if p c then some (cs.takeWhile p, cs.dropWhile p) else none

/-- Sequencing. -/
def mseq (a b : Mt) : Mt := fun cs =>
  match a cs with
  | none => none
  | some (t1, r1) =>
    match b r1 with
    | none => none
    | some (t2, r2) => some (t1 ++ t2, r2)

/-- Ordered alternation (left alternative preferred, as in `re`). -/
def malt (a b : Mt) : Mt := fun cs =>
  match a cs with
  | some x => some x
  | none => b cs

/-- Greedy option `(?:...)?`; exact here because whenever the body matches,
the continuation after the body cannot also match at the body's start. -/
def mopt (a : Mt) : Mt := fun cs =>
  match a cs with
  | some x => some x
  | none => some ([], cs)

/-- `\s*`. -/
def mws0 : Mt := mstar isSpaceCh

/-- `\s+`. -/
def mws1 : Mt := mplus1 isSpaceCh

/-- `\d+`. -/
def mdigits1 : Mt := mplus1 isDigitCh

/-- `\w+`. -/
def mword1 : Mt := mplus1 isWordCh

/-- `.*` (no DOTALL: stops at a newline). -/
def mlineRest : Mt := mstar (fun c => c ≠ '\n')

/-- `re.search` for an unanchored matcher: leftmost matching position wins;
returns `match.group(0)`. -/
def searchM (m : Mt) : List Char → Option (List Char)
  | [] => (m []).map (·.1)
  | c :: rest =>
    match m (c :: rest) with
    | some (t, _) => some t
    | none => searchM m rest

/-- Boolean `re.search`. -/
def searchB (m : Mt) (cs : List Char) : Bool :=
  (searchM m cs).isSome

/-! ### SecurityClassifier (`utils/security.py`) -/

/-- `password\s*:` -/
def pwPat1 : Mt := mseq (mlit "password") (mseq mws0 (mch (· = ':')))

/-- `passphrase\s*:` -/
def pwPat2 : Mt := mseq (mlit "passphrase") (mseq mws0 (mch (· = ':')))

/-- `pass\s*:` -/
def pwPat3 : Mt := mseq (mlit "pass") (mseq mws0 (mch (· = ':')))

/-- `enter\s+password` -/
def pwPat4 : Mt := mseq (mlit "enter") (mseq mws1 (mlit "password"))

/-- `authentication\s+required` -/
def pwPat5 : Mt := mseq (mlit "authentication") (mseq mws1 (mlit "required"))

/-- `is_password_prompt`: true iff any of the five password patterns matches
anywhere in the text. -/
def isPasswordPrompt (text : String) : Bool :=
  searchB pwPat1 text.data || searchB pwPat2 text.data || searchB pwPat3 text.data ||
  searchB pwPat4 text.data || searchB pwPat5 text.data

/-- `\b` holds before the current position given the previous character
(the dangerous patterns open on a word character, so the boundary reduces to
the previous character not being a word character). -/
def wbPrev (prev : Option Char) : Bool :=
  match prev with
  | none => true
  | some c => !isWordCh c

/-- `\b` holds after a word character given the remaining input. -/
def wbNext (rest : List Char) : Bool :=
  match rest with
  | [] => true
  | c :: _ => !isWordCh c

/-- A boundary-sensitive boolean pattern: previous character plus input. -/
def DPat : Type := Option Char → List Char → Bool

/-- `re.search` over a boundary-sensitive pattern. -/
def searchD (p : DPat) : Option Char → List Char → Bool
  | prev, [] => p prev []
  | prev, c :: rest => p prev (c :: rest) || searchD p (some c) rest

/-- Scan within the current line (`.` does not cross `\n`) for a position
with a word boundary before it where one of the (case-insensitive) literal
alternatives matches.  Used for the `\bX\b.*?\b(alt|...)` shapes. -/
def findWordsInLine (ws : List String) : Option Char → List Char → Bool
  | _, [] => false
  | prev, c :: rest =>
    (wbPrev prev && ws.any (fun w => ((mlit w) (c :: rest)).isSome)) ||
      (if c = '\n' then false else findWordsInLine ws (some c) rest)

/-- `\bLIT...` shape: boundary then a matcher. -/
def dLit (m : Mt) : DPat := fun prev cs =>
  wbPrev prev && (m cs).isSome

/-- `\bWORD\b` shape. -/
def dWord (w : String) : DPat := fun prev cs =>
  wbPrev prev &&
    (match (mlit w) cs with
     | some (_, rest) => wbNext rest
     | none => false)

/-- `\bWORD\b.*?\b(alt|..)` shape. -/
def dWordThen (w : String) (alts : List String) : DPat := fun prev cs =>
  wbPrev prev &&
    (match (mlit w) cs with
     | some (t, rest) => wbNext rest && findWordsInLine alts t.getLast? rest
     | none => false)

/-- `\brm\s+-rf\s+/` -/
def dang01 : DPat := dLit (mseq (mlit "rm") (mseq mws1 (mseq (mlit "-rf") (mseq mws1 (mch (· = '/'))))))

/-- `\bmkfs\b` -/
def dang02 : DPat := dWord "mkfs"

/-- `\bdd\s+if=` -/
def dang03 : DPat := dLit (mseq (mlit "dd") (mseq mws1 (mlit "if=")))

/-- Within the current line, find `:` immediately followed by `|` or `&`
(the `.*?[:][|&]` part of the fork-bomb pattern); returns the rest. -/
def findColonJoin : List Char → Option (List Char)
  | [] => none
  | c :: rest =>
    if c = '\n' then none
    else if c = ':' then
      match rest with
      | [] => none
      | c2 :: r2 => if c2 = '|' || c2 = '&' then some r2 else findColonJoin rest
    else findColonJoin rest

/-- Within the current line, find the closing `};:` of the fork-bomb
pattern. -/
def findCloseBombTail : List Char → Bool
  | [] => false
  | c :: rest =>
    if c = '\n' then false
    else if c = Char.ofNat 125 then
      match rest with
      | ';' :: ':' :: _ => true
      | _ => findCloseBombTail rest
    else findCloseBombTail rest

/-- Fork bomb `:[(][)]\{.*?[:][|&].*?\};:` -/
def dang04 : DPat := fun _ cs =>
  match (mseq (mlit ":()") (mch (· = Char.ofNat 123))) cs with
  | some (_, rest) =>
    match findColonJoin rest with
    | some r2 => findCloseBombTail r2
    | none => false
  | none => false

/-- `\bformat\s+[A-Z]:` (case-insensitive, so any ASCII letter) -/
def dang05 : DPat := dLit (mseq (mlit "format") (mseq mws1 (mseq (mch isLetterCh) (mch (· = ':')))))

/-- `\bdel\s+/[fqs]` -/
def dang06 : DPat := dLit (mseq (mlit "del") (mseq mws1 (mseq (mch (· = '/')) (mch (fun c => c.toLower = 'f' || c.toLower = 'q' || c.toLower = 's')))))

/-- `\bdelete\b.*?\btable` -/
def dang07 : DPat := dWordThen "delete" ["table"]

/-- `\bdelete\b.*?\b(all|files|data|everything)` -/
def dang08 : DPat := dWordThen "delete" ["all", "files", "data", "everything"]

/-- `\bdrop\s+table` -/
def dang09 : DPat := dLit (mseq (mlit "drop") (mseq mws1 (mlit "table")))

/-- `\btruncate\b.*?\btable` -/
def dang10 : DPat := dWordThen "truncate" ["table"]

/-- `\bremove\b.*?\b(all|files|data)` -/
def dang11 : DPat := dWordThen "remove" ["all", "files", "data"]

/-- `\bdestroy\b` -/
def dang12 : DPat := dWord "destroy"

/-- `\bwipe\b` -/
def dang13 : DPat := dWord "wipe"

/-- `\berase\b.*?\b(all|files|data)` -/
def dang14 : DPat := dWordThen "erase" ["all", "files", "data"]

/-- The ordered `DANGEROUS_PATTERNS` table. -/
def DANGEROUS_PATTERNS : List DPat :=
  [dang01, dang02, dang03, dang04, dang05, dang06, dang07,
   dang08, dang09, dang10, dang11, dang12, dang13, dang14]

/-- `is_dangerous_operation`: true iff any dangerous pattern matches. -/
def isDangerousOperation (text : String) : Bool :=
  DANGEROUS_PATTERNS.any (fun p => searchD p none text.data)

example : isPasswordPrompt "Enter password: " = true := by decide
example : isPasswordPrompt "Restart service? (yes/no)" = false := by decide
example : isDangerousOperation "WARNING: This will delete all data!\nContinue? (yes/no): " = true := by decide
example : isDangerousOperation "Restart service? (yes/no)" = false := by decide
example : isDangerousOperation "(yes/no)" = false := by decide
example : isDangerousOperation "password:" = false := by decide

/-! ### PromptDetector (`core/detector.py`) -/

/-- `PromptType` enum from `models/prompt.py`. -/
inductive PromptType where
  | PASSWORD
  | YES_NO
  | CHOICE
  | PATH
  | TEXT
  | COMMAND
  | UNKNOWN
deriving DecidableEq, Repr

/-- `PromptDetection` from `models/prompt.py` (the wall-clock `timestamp`
field is not modelled). -/
structure PromptDetection where
  prompt_text : String
  confidence : ℚ
  prompt_type : PromptType
  matched_pattern : String
  file_position : Nat
  is_dangerous : Bool
deriving DecidableEq, Repr

/-- A detector pattern entry: a search function (returning `group(0)`), the
prompt type and the base confidence, plus the regex source for the
`matched_pattern` debug field. -/
structure PromptPatternE where
  search : List Char → Option (List Char)
  prompt_type : PromptType
  confidence : ℚ
  name : String

/-- `password\s*:` -/
def detPat01 : PromptPatternE :=
  ⟨searchM (mseq (mlit "password") (mseq mws0 (mch (· = ':')))), .PASSWORD, mkRat 95 100, "password\\s*:"⟩

/-- `passphrase\s*:` -/
def detPat02 : PromptPatternE :=
  ⟨searchM (mseq (mlit "passphrase") (mseq mws0 (mch (· = ':')))), .PASSWORD, mkRat 95 100, "passphrase\\s*:"⟩

/-- `enter\s+(?:your\s+)?password` -/
def detPat03 : PromptPatternE :=
  ⟨searchM (mseq (mlit "enter") (mseq mws1 (mseq (mopt (mseq (mlit "your") mws1)) (mlit "password")))),
   .PASSWORD, mkRat 92 100, "enter\\s+(?:your\\s+)?password"⟩

/-- `\(yes/no\)|\[y/n\]|\(y/n\)` -/
def detPat04 : PromptPatternE :=
  ⟨searchM (malt (mlit "(yes/no)") (malt (mlit "[y/n]") (mlit "(y/n)"))),
   .YES_NO, mkRat 90 100, "\\(yes/no\\)|\\[y/n\\]|\\(y/n\\)"⟩

/-- `continue\?|proceed\?|confirm\?` -/
def detPat05 : PromptPatternE :=
  ⟨searchM (malt (mlit "continue?") (malt (mlit "proceed?") (mlit "confirm?"))),
   .YES_NO, mkRat 85 100, "continue\\?|proceed\\?|confirm\\?"⟩

/-- `enter\s+(?:file\s+)?path\s*:|(?:file|directory)\s+path\s*:` -/
def detPat06 : PromptPatternE :=
  ⟨searchM (malt
      (mseq (mlit "enter") (mseq mws1 (mseq (mopt (mseq (mlit "file") mws1))
        (mseq (mlit "path") (mseq mws0 (mch (· = ':')))))))
      (mseq (malt (mlit "file") (mlit "directory")) (mseq mws1
        (mseq (mlit "path") (mseq mws0 (mch (· = ':'))))))),
   .PATH, mkRat 88 100, "enter\\s+(?:file\\s+)?path\\s*:|(?:file|directory)\\s+path\\s*:"⟩

/-- `(?:file|directory)\s+name\s*:` -/
def detPat07 : PromptPatternE :=
  ⟨searchM (mseq (malt (mlit "file") (mlit "directory")) (mseq mws1
      (mseq (mlit "name") (mseq mws0 (mch (· = ':')))))),
   .PATH, mkRat 82 100, "(?:file|directory)\\s+name\\s*:"⟩

/-- One `\n\s*\[\d+\].*` iteration of the numbered-list pattern. -/
def choiceIter : Mt :=
  mseq (mch (· = '\n')) (mseq mws0 (mseq (mch (· = '[')) (mseq mdigits1
    (mseq (mch (· = ']')) mlineRest))))

/-- Greedy repetition of `choiceIter` (each iteration consumes the leading
newline, so the remaining input length is a valid fuel bound). -/
def choiceLoop : Nat → List Char → List Char × List Char
  | 0, cs => ([], cs)
  | fuel + 1, cs =>
    match choiceIter cs with
    | none => ([], cs)
    | some (t, r) =>
      let (t2, r2) := choiceLoop fuel r
      (t ++ t2, r2)

/-- `(?:\n\s*\[\d+\].*)+` -/
def choicePlus : Mt := fun cs =>
  match choiceIter cs with
  | none => none
  | some (t, r) =>
    let (t2, r2) := choiceLoop r.length r
    some (t ++ t2, r2)

/-- Body of the multi-line numbered-list pattern `\s*\[\d+\].*(?:\n\s*\[\d+\].*)+`. -/
def choiceBody : Mt :=
  mseq mws0 (mseq (mch (· = '[')) (mseq mdigits1 (mseq (mch (· = ']'))
    (mseq mlineRest choicePlus))))

/-- `re.search` for the `re.MULTILINE`-anchored choice pattern: only
positions at the start of the input or just after a newline are tried. -/
def searchChoice : Option Char → List Char → Option (List Char)
  | prev, [] =>
    if prev = none || prev = some '\n' then (choiceBody []).map (·.1) else none
  | prev, c :: rest =>
    match (if prev = none || prev = some '\n' then choiceBody (c :: rest) else none) with
    | some (t, _) => some t
    | none => searchChoice (some c) rest

/-- `^\s*\[\d+\].*(?:\n\s*\[\d+\].*)+` (MULTILINE) -/
def detPat08 : PromptPatternE :=
  ⟨searchChoice none, .CHOICE, mkRat 82 100, "numbered list"⟩

/-- `enter\s+command\s*:|command\s*:` -/
def detPat09 : PromptPatternE :=
  ⟨searchM (malt
      (mseq (mlit "enter") (mseq mws1 (mseq (mlit "command") (mseq mws0 (mch (· = ':'))))))
      (mseq (mlit "command") (mseq mws0 (mch (· = ':'))))),
   .COMMAND, mkRat 85 100, "enter\\s+command\\s*:|command\\s*:"⟩

/-- `enter\s+\w+\s*:|input\s*:` -/
def detPat10 : PromptPatternE :=
  ⟨searchM (malt
      (mseq (mlit "enter") (mseq mws1 (mseq mword1 (mseq mws0 (mch (· = ':'))))))
      (mseq (mlit "input") (mseq mws0 (mch (· = ':'))))),
   .TEXT, mkRat 75 100, "enter\\s+\\w+\\s*:|input\\s*:"⟩

/-- The ordered `PROMPT_PATTERNS` table of `detector.py`. -/
def PROMPT_PATTERNS : List PromptPatternE :=
  [detPat01, detPat02, detPat03, detPat04, detPat05,
   detPat06, detPat07, detPat08, detPat09, detPat10]

/-- `content.split('\n')`. -/
def splitLines (cs : List Char) : List (List Char) :=
  match cs with
  | [] => [[]]
  | c :: rest =>
    let ls := splitLines rest
    if c = '\n' then [] :: ls
    else
      match ls with
      | [] => [[c]]
      | l :: ls2 => (c :: l) :: ls2

/-- The last `n` elements of a list (`lines[-n:]`). -/
def lastN (n : Nat) (xs : List (List Char)) : List (List Char) :=
  xs.drop (xs.length - n)

/-- `'\n'.flatten(lines)`. -/
def joinNL (ls : List (List Char)) : List Char :=
  match ls with
  | [] => []
  | [l] => l
  | l :: ls2 => l ++ '\n' :: joinNL ls2

/-- The pattern loop of `PromptDetector.detect`: for the first entry whose
regex matches and whose base confidence clears the threshold, build the
detection; an entry that matches below the threshold is skipped and the scan
continues. -/
def detectLoop (minConf : ℚ) (recent : List Char) (filePos : Nat) :
    List PromptPatternE → Option PromptDetection
  | [] => none
  | p :: ps =>
    match p.search recent with
    | some t =>
      if minConf ≤ p.confidence then
        let promptText := stripChars t
        some ⟨⟨promptText⟩, p.confidence, p.prompt_type, p.name, filePos,
              isDangerousOperation ⟨promptText⟩⟩
      else detectLoop minConf recent filePos ps
    | none => detectLoop minConf recent filePos ps

/-- `PromptDetector.detect`: empty content gives `none`; otherwise the last
50 lines are re-joined and scanned through `PROMPT_PATTERNS` in order. -/
def detect (minConf : ℚ) (content : String) (filePos : Nat) : Option PromptDetection :=
  if content.data = [] then none
  else
    let lines := splitLines content.data
    let recent := joinNL (lastN 50 lines)
    detectLoop minConf recent filePos PROMPT_PATTERNS

example :
    detect (mkRat 70 100) "Enter password: " 0 =
      some ⟨"password:", mkRat 95 100, .PASSWORD, "password\\s*:", 0, false⟩ := by decide

example :
    (detect (mkRat 70 100) "WARNING: This will delete all data!\nContinue? (yes/no): " 0).map
        (·.prompt_type) = some PromptType.YES_NO := by decide

/-! ### SHA-256 (for `PatternLearner._generate_pattern_id`)

`hashlib.sha256` over the UTF-8 bytes of the normalized prompt text,
implemented over `Nat` with explicit reduction modulo `2^32`. -/

/-- Truncate to 32 bits. -/
def w32 (n : Nat) : Nat := n % 4294967296

/-- 32-bit rotate right. -/
def rotr32 (n x : Nat) : Nat := w32 ((x >>> n) ||| (x <<< (32 - n)))

/-- SHA-256 `Ch`. -/
def shaCh (x y z : Nat) : Nat := (x &&& y) ^^^ ((x ^^^ 4294967295) &&& z)

/-- SHA-256 `Maj`. -/
def shaMaj (x y z : Nat) : Nat := (x &&& y) ^^^ (x &&& z) ^^^ (y &&& z)

/-- SHA-256 `Σ₀`. -/
def bigS0 (x : Nat) : Nat := rotr32 2 x ^^^ rotr32 13 x ^^^ rotr32 22 x

/-- SHA-256 `Σ₁`. -/
def bigS1 (x : Nat) : Nat := rotr32 6 x ^^^ rotr32 11 x ^^^ rotr32 25 x

/-- SHA-256 `σ₀`. -/
def smallS0 (x : Nat) : Nat := rotr32 7 x ^^^ rotr32 18 x ^^^ (x >>> 3)

/-- SHA-256 `σ₁`. -/
def smallS1 (x : Nat) : Nat := rotr32 17 x ^^^ rotr32 19 x ^^^ (x >>> 10)

/-- SHA-256 round constants. -/
def K_TABLE : List Nat :=
  [1116352408, 1899447441, 3049323471, 3921009573,
   961987163, 1508970993, 2453635748, 2870763221,
   3624381080, 310598401, 607225278, 1426881987,
   1925078388, 2162078206, 2614888103, 3248222580,
   3835390401, 4022224774, 264347078, 604807628,
   770255983, 1249150122, 1555081692, 1996064986,
   2554220882, 2821834349, 2952996808, 3210313671,
   3336571891, 3584528711, 113926993, 338241895,
   666307205, 773529912, 1294757372, 1396182291,
   1695183700, 1986661051, 2177026350, 2456956037,
   2730485921, 2820302411, 3259730800, 3345764771,
   3516065817, 3600352804, 4094571909, 275423344,
   430227734, 506948616, 659060556, 883997877,
   958139571, 1322822218, 1537002063, 1747873779,
   1955562222, 2024104815, 2227730452, 2361852424,
   2428436474, 2756734187, 3204031479, 3329325298]

/-- SHA-256 working state. -/
structure Sha8 where
  a : Nat
  b : Nat
  c : Nat
  d : Nat
  e : Nat
  f : Nat
  g : Nat
  h : Nat

/-- SHA-256 initial hash value. -/
def sha8Init : Sha8 :=
  ⟨1779033703, 3144134277, 1013904242, 2773480762, 1359893119, 2600822924, 528734635, 1541459225⟩

/-- One compression round. -/
def shaRound (st : Sha8) (k w : Nat) : Sha8 :=
  let t1 := w32 (st.h + bigS1 st.e + shaCh st.e st.f st.g + k + w)
  let t2 := w32 (bigS0 st.a + shaMaj st.a st.b st.c)
  ⟨w32 (t1 + t2), st.a, st.b, st.c, w32 (st.d + t1), st.e, st.f, st.g⟩

/-- Message-schedule extension from the 16 block words to 64 words. -/
def shaSchedule (block : List Nat) : Array Nat :=
  (List.range 48).foldl
    (fun arr i =>
      let t := i + 16
      arr.push (w32 (smallS1 (arr.getD (t - 2) 0) + arr.getD (t - 7) 0 +
                     smallS0 (arr.getD (t - 15) 0) + arr.getD (t - 16) 0)))
    block.toArray

/-- Compress one 16-word block into the state. -/
def shaCompressBlock (st : Sha8) (block : List Nat) : Sha8 :=
  let ws := shaSchedule block
  let st2 := (List.range 64).foldl
    (fun s i => shaRound s (K_TABLE.getD i 0) (ws.getD i 0)) st
  ⟨w32 (st.a + st2.a), w32 (st.b + st2.b), w32 (st.c + st2.c), w32 (st.d + st2.d),
   w32 (st.e + st2.e), w32 (st.f + st2.f), w32 (st.g + st2.g), w32 (st.h + st2.h)⟩

/-- UTF-8 encoding of one character. -/
def utf8Bytes (c : Char) : List Nat :=
  let n := c.toNat
  if n < 128 then [n]
  else if n < 2048 then [192 + n / 64, 128 + n % 64]
  else if n < 65536 then [224 + n / 4096, 128 + n / 64 % 64, 128 + n % 64]
  else [240 + n / 262144, 128 + n / 4096 % 64, 128 + n / 64 % 64, 128 + n % 64]

/-- UTF-8 bytes of a string. -/
def strBytes (s : String) : List Nat := (s.data.map utf8Bytes).flatten

/-- SHA-256 padding: `0x80`, zeros, then the 64-bit big-endian bit length. -/
def padMessage (bytes : List Nat) : List Nat :=
  let len := bytes.length
  let zeros := (119 - len % 64) % 64
  let bitLen := len * 8
  bytes ++ 128 :: List.replicate zeros 0 ++
    (List.range 8).map (fun i => bitLen >>> (56 - 8 * i) &&& 255)

/-- Group bytes into big-endian 32-bit words. -/
def toWords : List Nat → List Nat
  | b1 :: b2 :: b3 :: b4 :: rest => (((b1 * 256 + b2) * 256 + b3) * 256 + b4) :: toWords rest
  | _ => []

/-- Group words into 16-word blocks (fuel-based structural recursion so the
definition reduces inside the kernel; the word count is a sufficient fuel). -/
def toBlocksF : Nat → List Nat → List (List Nat)
  | 0, _ => []
  | _, [] => []
  | fuel + 1, w :: ws => ((w :: ws).take 16) :: toBlocksF fuel (ws.drop 15)

/-- Group words into 16-word blocks. -/
def toBlocks (ws : List Nat) : List (List Nat) := toBlocksF ws.length ws

/-- Lower-case hex digit. -/
def hexDigit (n : Nat) : Char :=
  if n < 10 then Char.ofNat (48 + n) else Char.ofNat (87 + n)

/-- Eight hex digits of a 32-bit word. -/
def toHex8 (n : Nat) : List Char :=
  (List.range 8).map (fun i => hexDigit (n >>> (28 - 4 * i) &&& 15))

/-- `hashlib.sha256(s.encode()).hexdigest()`. -/
def sha256hex (s : String) : String :=
  let blocks := toBlocks (toWords (padMessage (strBytes s)))
  let st := blocks.foldl shaCompressBlock sha8Init
  ⟨([st.a, st.b, st.c, st.d, st.e, st.f, st.g, st.h].map toHex8).flatten⟩

/-- `PatternLearner._generate_pattern_id`: first 16 hex characters of the
SHA-256 of the lower-cased, whitespace-stripped prompt text. -/
def generatePatternId (prompt_text : String) : String :=
  ⟨(sha256hex (stripStr (lowerStr prompt_text))).data.take 16⟩


/-! ### Pattern model (`models/pattern.py`) -/

/-- `ResponseStats` from `models/pattern.py`. -/
structure ResponseStats where
  count : Nat
  success_count : Nat
deriving DecidableEq, Repr

/-- `success_rate` property: `success_count / count`, `0` if `count = 0`. -/
def ResponseStats.success_rate (s : ResponseStats) : ℚ :=
  if 0 < s.count then mkRat s.success_count s.count else mkRat 0 1

/-- `Pattern` from `models/pattern.py`; the `responses` dict is modelled as
an insertion-ordered association list, datetimes as `Nat` ticks. -/
structure Pattern where
  pattern_id : String
  prompt_text : String
  responses : List (String × ResponseStats)
  total_occurrences : Nat
  last_seen : Nat
  created_at : Nat
deriving DecidableEq, Repr

/-- The JSON dict shape produced by `Pattern.to_dict`: stats become
`(count, success_count)` pairs and datetimes their serialized form. -/
structure PatternDict where
  pattern_id : String
  prompt_text : String
  responses : List (String × Nat × Nat)
  total_occurrences : Nat
  last_seen : String
  created_at : String
deriving DecidableEq, Repr

/-- `datetime.isoformat`, modelled as an injective rendering of the tick. -/
def isoformat (t : Nat) : String := toString t

/-- `datetime.fromisoformat`, the left inverse of `isoformat`. -/
def fromisoformat (s : String) : Nat := s.toNat?.getD 0

/-- `Pattern.to_dict`. -/
def Pattern.to_dict (p : Pattern) : PatternDict :=
  ⟨p.pattern_id, p.prompt_text,
   p.responses.map (fun e => (e.1, e.2.count, e.2.success_count)),
   p.total_occurrences, isoformat p.last_seen, isoformat p.created_at⟩

/-- `Pattern.from_dict`. -/
def Pattern.from_dict (d : PatternDict) : Pattern :=
  ⟨d.pattern_id, d.prompt_text,
   d.responses.map (fun e => (e.1, ⟨e.2.1, e.2.2⟩)),
   d.total_occurrences, fromisoformat d.last_seen, fromisoformat d.created_at⟩

/-- Dict lookup in the responses map (keys are unique in a Python dict, so
the first hit is the binding). -/
def lookupResp (rs : List (String × ResponseStats)) (t : String) : Option ResponseStats :=
  (rs.find? (fun e => e.1 = t)).map (·.2)

/-! ### PatternLearner (`core/patterns.py`) -/

/-- `InputSource` from `models/input_event.py`. -/
inductive InputSource where
  | USER_TYPED
  | AI_SUGGESTED
  | AUTO_INJECTED
deriving DecidableEq, Repr

/-- `InputEvent` from `models/input_event.py`; `event_id` is modelled as the
index drawn from the learner's id counter (standing for `uuid4`),
`timestamp` as a `Nat` tick. -/
structure InputEvent where
  event_id : Nat
  session_id : String
  timestamp : Nat
  prompt_text : String
  input_text : String
  success : Bool
  input_source : InputSource
  response_time_ms : Nat
deriving DecidableEq, Repr

/-- The in-memory state of a `PatternLearner`: the per-session event lists,
the pattern table (both insertion-ordered dicts), and the fresh-id counter
modelling the UUID generator. -/
structure LearnerState where
  events : List (String × List InputEvent)
  patterns : List (String × Pattern)
  nextEventId : Nat
deriving DecidableEq, Repr

/-- A learner constructed with an empty store. -/
def emptyLearner : LearnerState := ⟨[], [], 0⟩

/-- `stats.count += 1; if success: stats.success_count += 1`. -/
def bumpStats (s : ResponseStats) (success : Bool) : ResponseStats :=
  ⟨s.count + 1, s.success_count + (if success then 1 else 0)⟩

/-- Get-or-create of `pattern.responses[input_text]` followed by the counter
increments, preserving dict insertion order. -/
def updResponses : List (String × ResponseStats) → String → Bool → List (String × ResponseStats)
  | [], input, success => [(input, bumpStats ⟨0, 0⟩ success)]
  | (k, v) :: rest, input, success =>
    if k = input then (k, bumpStats v success) :: rest
    else (k, v) :: updResponses rest input success

/-- The mutation `_update_pattern` performs on an existing (or freshly
created) `Pattern`. -/
def updatePatternEntry (p : Pattern) (input : String) (success : Bool) (now : Nat) : Pattern :=
  { p with
    responses := updResponses p.responses input success,
    total_occurrences := p.total_occurrences + 1,
    last_seen := now }

/-- The fresh `Pattern` created on first sight of a prompt. -/
def newPattern (pid prompt : String) (now : Nat) : Pattern :=
  ⟨pid, prompt, [], 0, now, now⟩

/-- `_update_pattern` on the pattern table: get-or-create by `pattern_id`,
then increment, preserving dict insertion order. -/
def updPatterns : List (String × Pattern) → String → String → String → Bool → Nat →
    List (String × Pattern)
  | [], pid, prompt, input, success, now =>
    [(pid, updatePatternEntry (newPattern pid prompt now) input success now)]
  | (k, p) :: rest, pid, prompt, input, success, now =>
    if k = pid then (k, updatePatternEntry p input success now) :: rest
    else (k, p) :: updPatterns rest pid prompt input success now

/-- Append an event to its session's list (creating the list on first use). -/
def appendEvent : List (String × List InputEvent) → String → InputEvent →
    List (String × List InputEvent)
  | [], sid, e => [(sid, [e])]
  | (k, es) :: rest, sid, e =>
    if k = sid then (k, es ++ [e]) :: rest else (k, es) :: appendEvent rest sid e

/-- The dictionary returned by `track_input_event`. -/
structure TrackResult where
  event_id : Nat
  recorded : Bool
  pattern_updated : Bool
deriving DecidableEq, Repr

/-- `PatternLearner.track_input_event`: redact password prompts, append the
event to the session list, and update the pattern table unless the prompt is
password-like. -/
def trackInputEvent (st : LearnerState) (now : Nat)
    (session_id prompt_text input_text : String) (success : Bool)
    (input_source : InputSource) (response_time_ms : Nat) :
    TrackResult × LearnerState :=
  let event_id := st.nextEventId
  let is_password := isPasswordPrompt prompt_text
  let stored_input := if is_password then "[REDACTED]" else input_text
  let event : InputEvent :=
    ⟨event_id, session_id, now, prompt_text, stored_input, success, input_source,
     response_time_ms⟩
  let events2 := appendEvent st.events session_id event
  let patterns2 :=
    if is_password then st.patterns
    else updPatterns st.patterns (generatePatternId prompt_text) prompt_text input_text
      success now
  (⟨event_id, true, !is_password⟩, ⟨events2, patterns2, st.nextEventId + 1⟩)

/-- `get_session_events`. -/
def getSessionEvents (st : LearnerState) (sid : String) : List InputEvent :=
  ((st.events.find? (fun e => e.1 = sid)).map (·.2)).getD []

/-- `get_pattern_by_prompt`: hash lookup with the same normalization. -/
def getPatternByPrompt (patterns : List (String × Pattern)) (text : String) : Option Pattern :=
  ((patterns.find? (fun e => e.1 = generatePatternId text)).map (·.2))

/-- One call of a `track_input_event` sequence. -/
structure TrackCall where
  now : Nat
  session_id : String
  prompt_text : String
  input_text : String
  success : Bool
  input_source : InputSource
  response_time_ms : Nat
deriving DecidableEq, Repr

/-- Run a sequence of `track_input_event` calls. -/
def runCalls (st : LearnerState) : List TrackCall → LearnerState
  | [] => st
  | c :: cs =>
    runCalls (trackInputEvent st c.now c.session_id c.prompt_text c.input_text c.success
      c.input_source c.response_time_ms).2 cs

/-- Sum of the `count` fields of a responses map. -/
def sumCounts (rs : List (String × ResponseStats)) : Nat :=
  (rs.map (fun e => e.2.count)).sum

/-- The C1 invariant as a boolean over a pattern table: every pattern's
response counts sum to its `total_occurrences`. -/
def patternsConsistent (ps : List (String × Pattern)) : Bool :=
  ps.all (fun e => sumCounts e.2.responses == e.2.total_occurrences)

/-! ### InputInferenceEngine (`core/inference.py`)

The engine's optional `pattern_learner` is modelled by passing the learner's
pattern table; an absent learner corresponds to the empty table (both yield
no pattern suggestions). -/

/-- `InputSuggestion` from `core/inference.py`. -/
structure InputSuggestion where
  input_text : String
  confidence : ℚ
  source : String
  reasoning : String
deriving DecidableEq, Repr

/-- The optional `session_context` dict: the code only reads its
`working_directory` key. -/
structure SessionContext where
  working_directory : Option String
deriving DecidableEq, Repr

/-- The dangerous-operation warning string. -/
def dangerWarningText : String :=
  "⚠️  Dangerous operation detected: This prompt involves potentially destructive actions. Review carefully before proceeding."

/-- The password warning string. -/
def passwordWarningText : String :=
  "Security: Manual password entry required. Never auto-suggest passwords."

/-- The unknown-prompt warning string. -/
def unknownWarningText : String :=
  "Unknown prompt type - manual input required"

/-- `_suggest_password_inputs` (none, for security). -/
def suggestPasswordInputs : List InputSuggestion := []

/-- `_suggest_yes_no_inputs`. -/
def suggestYesNoInputs (prompt_text : String) (ctx : Option SessionContext) :
    List InputSuggestion :=
  if isDangerousOperation prompt_text then
    [⟨"no", mkRat 85 100, "default",
      "Recommended: Dangerous operation detected. Saying \x27no\x27 is the safer choice."⟩,
     ⟨"yes", mkRat 60 100, "default",
      "⚠️  Proceed with caution: This will execute a potentially dangerous operation."⟩]
  else
    let context_info :=
      match ctx with
      | some c =>
        match c.working_directory with
        | some wd => " (working directory: " ++ wd ++ ")"
        | none => ""
      | none => ""
    [⟨"yes", mkRat 75 100, "default", "Confirm the operation" ++ context_info⟩,
     ⟨"no", mkRat 75 100, "default", "Cancel the operation" ++ context_info⟩]

/-- `re.findall(r"\[(\d+)\]", prompt_text)`: the bracketed numerals, in
order of appearance, non-overlapping (fuel-based so the definition reduces;
the input length is a sufficient fuel). -/
def extractChoicesF : Nat → List Char → List String
  | 0, _ => []
  | _, [] => []
  | fuel + 1, c :: rest =>
    if c = '[' then
      match rest.takeWhile isDigitCh, rest.dropWhile isDigitCh with
      | d :: ds, ']' :: r2 => (⟨d :: ds⟩ : String) :: extractChoicesF fuel r2
      | _, _ => extractChoicesF fuel rest
    else extractChoicesF fuel rest

/-- The numerals of `[N]` groups in the prompt. -/
def extractChoices (cs : List Char) : List String := extractChoicesF cs.length cs

/-- `_suggest_choice_inputs`. -/
def suggestChoiceInputs (prompt_text : String) : List InputSuggestion :=
  (extractChoices prompt_text.data).map
    (fun num => ⟨num, mkRat 80 100, "default", "Select option " ++ num⟩)

/-- `_suggest_path_inputs`. -/
def suggestPathInputs (ctx : Option SessionContext) : List InputSuggestion :=
  let base : List InputSuggestion :=
    [⟨"./", mkRat 70 100, "default", "Current directory (relative path)"⟩,
     ⟨"/tmp/", mkRat 65 100, "default", "Temporary directory"⟩,
     ⟨"/home/", mkRat 65 100, "default", "Home directory"⟩]
  match ctx with
  | some c =>
    match c.working_directory with
    | some wd =>
      ⟨wd, mkRat 80 100, "context_inference",
       "Current working directory from session context"⟩ :: base
    | none => base
  | none => base

/-- `_suggest_command_inputs`. -/
def suggestCommandInputs : List InputSuggestion :=
  [⟨"help", mkRat 60 100, "default", "Display help information"⟩,
   ⟨"exit", mkRat 60 100, "default", "Exit the current session"⟩,
   ⟨"status", mkRat 60 100, "default", "Check status"⟩,
   ⟨"ls", mkRat 60 100, "default", "List directory contents"⟩]

/-- `_suggest_text_inputs` (no safe generic guess). -/
def suggestTextInputs : List InputSuggestion := []

/-- Stable insertion preserving descending `count` order: the new element
goes after the existing elements with a count at least as large (matching
Python's stable `sorted(..., reverse=True)`). -/
def insertRespDesc (x : String × ResponseStats) :
    List (String × ResponseStats) → List (String × ResponseStats)
  | [] => [x]
  | y :: ys => if x.2.count < y.2.count then y :: insertRespDesc x ys else x :: y :: ys

/-- `sorted(pattern.responses.items(), key=lambda x: x[1].count, reverse=True)`
(stable). -/
def sortRespDesc : List (String × ResponseStats) → List (String × ResponseStats)
  | [] => []
  | x :: xs => insertRespDesc x (sortRespDesc xs)

/-- Python `f"{x:.0f}"` on the modelled exact rational: round to the nearest
integer (ties toward the larger value; the claims never inspect these
strings at a tie). -/
def fmtPercent (q : ℚ) : String := toString (Int.floor (q + mkRat 1 2))

/-- Build one pattern-learning suggestion from a learned response:
`0.70 * (count / total_occurrences) + 0.30 * success_rate`, with a flat
`+0.05` boost capped at `0.95` when `total_occurrences ≥ 10`. -/
def mkPatternSuggestion (total : Nat) (e : String × ResponseStats) : InputSuggestion :=
  let frequency_score : ℚ := mkRat e.2.count total
  let success_score := e.2.success_rate
  let confidence0 := frequency_score * mkRat 70 100 + success_score * mkRat 30 100
  let confidence :=
    if 10 ≤ total then
      let c := confidence0 + mkRat 5 100
      if mkRat 95 100 ≤ c then mkRat 95 100 else c
    else confidence0
  ⟨e.1, confidence, "pattern_learning",
   "Learned from pattern: used " ++ toString e.2.count ++ "/" ++ toString total ++
     " times (" ++ fmtPercent (mkRat (e.2.count * 100) total) ++ "%), " ++
     fmtPercent (e.2.success_rate * mkRat 100 1) ++ "% success rate"⟩

/-- `_get_pattern_suggestions`: hash-lookup of the prompt, then one
suggestion per learned response, most-used first. -/
def getPatternSuggestions (patterns : List (String × Pattern)) (prompt_text : String) :
    List InputSuggestion :=
  match getPatternByPrompt patterns prompt_text with
  | none => []
  | some pat => (sortRespDesc pat.responses).map (mkPatternSuggestion pat.total_occurrences)

/-- Insert-or-overwrite into the `default_map` dict (insertion position is
kept on overwrite, as in a Python dict). -/
def assocPut (m : List (String × InputSuggestion)) (k : String) (v : InputSuggestion) :
    List (String × InputSuggestion) :=
  match m with
  | [] => [(k, v)]
  | (k2, v2) :: rest => if k2 = k then (k2, v) :: rest else (k2, v2) :: assocPut rest k v

/-- `{s.input_text: s for s in suggestions}`. -/
def buildDefaultMap (ds : List InputSuggestion) : List (String × InputSuggestion) :=
  ds.foldl (fun m d => assocPut m d.input_text d) []

/-- The merge step of `infer_inputs`: when pattern suggestions exist they
come first, and any default whose `input_text` they cover is dropped. -/
def mergeSuggestions (patternSuggs defaults : List InputSuggestion) : List InputSuggestion :=
  match patternSuggs with
  | [] => defaults
  | _ =>
    let defaultMap := buildDefaultMap defaults
    let remaining := defaultMap.filter
      (fun kv => patternSuggs.all (fun p => p.input_text ≠ kv.1))
    patternSuggs ++ remaining.map (·.2)

/-- `InputInferenceEngine.infer_inputs`. -/
def inferInputs (patterns : List (String × Pattern)) (prompt_text : String)
    (prompt_type : PromptType) (ctx : Option SessionContext) :
    List InputSuggestion × List String :=
  let warnings0 : List String :=
    if isDangerousOperation prompt_text then [dangerWarningText] else []
  let pattern_suggestions := getPatternSuggestions patterns prompt_text
  let (suggestions, warnings) :=
    match prompt_type with
    | .PASSWORD => (suggestPasswordInputs, warnings0 ++ [passwordWarningText])
    | .YES_NO => (suggestYesNoInputs prompt_text ctx, warnings0)
    | .CHOICE => (suggestChoiceInputs prompt_text, warnings0)
    | .PATH => (suggestPathInputs ctx, warnings0)
    | .COMMAND => (suggestCommandInputs, warnings0)
    | .TEXT => (suggestTextInputs, warnings0)
    | .UNKNOWN => ([], warnings0 ++ [unknownWarningText])
  (mergeSuggestions pattern_suggestions suggestions, warnings)

/-- Case-sensitive literal matcher. -/
def mlitExact (s : String) : Mt := fun cs =>
  if s.data.isPrefixOf cs then some (s.data, cs.drop s.data.length) else none

/-- Substring test (Python `needle in haystack`). -/
def containsSub (haystack needle : String) : Bool :=
  (searchM (mlitExact needle) haystack.data).isSome

/-! ### Storage retention cleanup (`core/storage.py`, `mcp/tools/history.py`)

The filesystem is modelled as a listing of directory entries with integer
modification times (seconds) and sizes. -/

/-- One directory entry as seen by `Path.iterdir` / `os.walk`. -/
structure DirEntry where
  name : String
  is_file : Bool
  mtime : Int
  size : Nat
deriving DecidableEq, Repr

/-- The dictionary returned by `storage.cleanup_old_sessions`. -/
structure CleanupResult where
  deleted_sessions : List String
  total_deleted : Nat
  bytes_freed : Nat
  dry_run : Bool
deriving DecidableEq, Repr

/-- The deletion predicate of `storage.cleanup_old_sessions`: a direct child
that is a file and whose mtime is strictly older than
`now - retention_days * 86400`. -/
def sessionCleanupDeletes (now : Int) (retention_days : Nat) (e : DirEntry) : Bool :=
  e.is_file && e.mtime < now - retention_days * 86400

/-- `storage.cleanup_old_sessions(sessions_dir, retention_days, dry_run)`
over the listing of `sessions_dir` (an absent directory is the empty
listing). -/
def cleanup_old_sessions (entries : List DirEntry) (now : Int) (retention_days : Nat)
    (dry_run : Bool) : CleanupResult :=
  let deleted := entries.filter (sessionCleanupDeletes now retention_days)
  ⟨deleted.map (·.name), deleted.length, (deleted.map (·.size)).sum, dry_run⟩

/-- The directory contents after `storage.cleanup_old_sessions` ran. -/
def cleanupSessionsRemaining (entries : List DirEntry) (now : Int) (retention_days : Nat)
    (dry_run : Bool) : List DirEntry :=
  if dry_run then entries
  else entries.filter (fun e => !sessionCleanupDeletes now retention_days e)

/-- `storage.cleanup_old_files` over the recursive file walk of the storage
directory: identical age test, but the global patterns file is skipped.
Entry names stand for full paths, and the patterns file path is the
`PATTERNS_FILE` constant. -/
def cleanup_old_files (files : List DirEntry) (now : Int) (retention_days : Nat)
    (_dry_run : Bool) : List String × Nat :=
  let deleted := files.filter (fun e =>
    decide (e.name ≠ "/tmp/ssk-sessions/patterns.json") &&
      e.mtime < now - retention_days * 86400)
  (deleted.map (·.name), (deleted.map (·.size)).sum)

/-- The `cleanup_old_sessions` MCP tool (`mcp/tools/history.py`): validates
the retention range, then runs `storage.cleanup_old_sessions` with
`sessions_dir = STORAGE_DIR` — the directory that directly contains the
aggregate `patterns.json` blob. -/
def cleanupOldSessionsTool (storageEntries : List DirEntry) (now : Int)
    (retention_days : Nat) (dry_run : Bool) : Except String CleanupResult :=
  if retention_days < 1 || 365 < retention_days then .error "INVALID_RETENTION_DAYS"
  else .ok (cleanup_old_sessions storageEntries now retention_days dry_run)

/-! ### LogTailer / SessionMonitor (`utils/file_utils.py`, `core/monitor.py`) -/

/-- A file as the reader sees it: readability plus decoded content
(positions index the modelled content). -/
structure FileInfo where
  readable : Bool
  content : List Char

/-- The filesystem visible to a read call. -/
def FileSys : Type := String → Option FileInfo

/-- The two exception classes `read_from_position` can raise. -/
inductive FileError where
  | FileNotFoundError
  | PermissionError
deriving DecidableEq, Repr

/-- `file_utils.read_from_position`: `FileNotFoundError` when the path does
not exist, `PermissionError` when it is unreadable, otherwise the content
from the position together with the post-read cursor. -/
def read_from_position (fs : FileSys) (path : String) (pos : Nat) :
    Except FileError (List Char × Nat) :=
  match fs path with
  | none => .error .FileNotFoundError
  | some fi =>
    if !fi.readable then .error .PermissionError
    else .ok (fi.content.drop pos, fi.content.length)

/-- `file_utils.get_file_size` (only reached on an existing file). -/
def getFileSize (fs : FileSys) (path : String) : Nat :=
  ((fs path).map (fun fi => fi.content.length)).getD 0

/-- `SessionState` from `models/session.py`. -/
inductive SessionState where
  | ACTIVE
  | STOPPED
deriving DecidableEq, Repr

/-- The `Session` fields `SessionMonitor.get_updates` touches. -/
structure Session where
  session_id : String
  log_file : String
  file_position : Nat
  state : SessionState
deriving DecidableEq, Repr

/-- `SessionMonitor.get_updates`: on success, advance the position and
report whether the file holds more; on `FileNotFoundError` or
`PermissionError`, flip the session state to STOPPED and re-raise. -/
def getUpdates (fs : FileSys) (s : Session) :
    Except FileError (List Char × Bool) × Session :=
  match read_from_position fs s.log_file s.file_position with
  | .ok (new_content, new_position) =>
    let s2 := { s with file_position := new_position }
    let current_size := getFileSize fs s.log_file
    (.ok (new_content, decide (new_position < current_size)), s2)
  | .error e => (.error e, { s with state := .STOPPED })

/-! ### Helper lemmas -/

/-- One response update adds exactly one to the summed counts. -/
theorem sumCounts_updResponses (rs : List (String × ResponseStats)) (input : String)
    (success : Bool) :
    sumCounts (updResponses rs input success) = sumCounts rs + 1 := by
  induction rs with
  | nil => simp [updResponses, sumCounts, bumpStats]
  | cons e rest ih =>
    by_cases h : e.1 = input
    · cases e with
      | mk k v => simp_all [updResponses, sumCounts, bumpStats]; omega
    · cases e with
      | mk k v =>
        simp_all [updResponses, sumCounts]
        omega

/-- `_update_pattern` preserves the count/total invariant of the table. -/
theorem patternsConsistent_updPatterns (ps : List (String × Pattern))
    (pid prompt input : String) (success : Bool) (now : Nat)
    (h : patternsConsistent ps = true) :
    patternsConsistent (updPatterns ps pid prompt input success now) = true := by
  induction ps with
  | nil =>
    simp [updPatterns, patternsConsistent, updatePatternEntry, newPattern,
      updResponses, bumpStats, sumCounts]
  | cons e rest ih =>
    cases e with
    | mk k p =>
      simp only [patternsConsistent, List.all_cons, Bool.and_eq_true, beq_iff_eq] at h
      obtain ⟨h1, h2⟩ := h
      by_cases hk : k = pid
      · simp only [updPatterns, if_pos hk, patternsConsistent, List.all_cons,
          Bool.and_eq_true, beq_iff_eq]
        constructor
        · simp [updatePatternEntry, sumCounts_updResponses, h1]
        · exact h2
      · simp only [updPatterns, if_neg hk, patternsConsistent, List.all_cons,
          Bool.and_eq_true, beq_iff_eq]
        constructor
        · exact h1
        · exact ih h2

/-- `track_input_event` preserves the count/total invariant. -/
theorem patternsConsistent_track (st : LearnerState) (now : Nat)
    (sid prompt input : String) (success : Bool) (src : InputSource) (rt : Nat)
    (h : patternsConsistent st.patterns = true) :
    patternsConsistent
      (trackInputEvent st now sid prompt input success src rt).2.patterns = true := by
  simp only [trackInputEvent]
  by_cases hp : isPasswordPrompt prompt
  · simp [hp, h]
  · simp [hp, patternsConsistent_updPatterns _ _ _ _ _ _ h]

/-- Any run of `track_input_event` calls preserves the invariant. -/
theorem patternsConsistent_runCalls (calls : List TrackCall) :
    ∀ st : LearnerState, patternsConsistent st.patterns = true →
      patternsConsistent (runCalls st calls).patterns = true := by
  induction calls with
  | nil => intro st h; simpa [runCalls] using h
  | cons c rest ih =>
    intro st h
    simp only [runCalls]
    exact ih _ (patternsConsistent_track st c.now c.session_id c.prompt_text c.input_text
      c.success c.input_source c.response_time_ms h)

set_option linter.unusedVariables false in
/-- C1: for every sequence of `track_input_event` calls on prompts the
SecurityClassifier does not flag as password-like, after every call (i.e.
after every prefix of the sequence) each pattern in the in-memory table has
response counts summing to its `total_occurrences`. -/
theorem claim_C1 (calls : List TrackCall)
    (hpw : ∀ c ∈ calls, isPasswordPrompt c.prompt_text = false) :
    ∀ n : Nat, patternsConsistent (runCalls emptyLearner (calls.take n)).patterns = true := by
  intro n
  exact patternsConsistent_runCalls (calls.take n) emptyLearner (by decide)

/-- Concrete sequence for the C1 witness: two non-password prompts sharing a
normalized prompt text. -/
def c1calls : List TrackCall :=
  [⟨1, "s1", "Restart service? (yes/no)", "no", true, .USER_TYPED, 100⟩,
   ⟨2, "s1", "  restart service? (yes/no)", "yes", false, .USER_TYPED, 80⟩]

/-- Witness for C1 at a concrete two-call sequence. -/
theorem claim_C1_witness :
    patternsConsistent (runCalls emptyLearner (c1calls.take 2)).patterns = true :=
  claim_C1 c1calls (by decide) 2

/-- Appending an event to a session's list extends exactly that session's
event list. -/
theorem getSessionEvents_appendEvent (evs : List (String × List InputEvent))
    (sid : String) (e : InputEvent) :
    ((appendEvent evs sid e).find? (fun x => x.1 = sid)).map (·.2) =
      some (((evs.find? (fun x => x.1 = sid)).map (·.2)).getD [] ++ [e]) := by
  induction evs with
  | nil => simp [appendEvent]
  | cons kv rest ih =>
    cases kv with
    | mk k es =>
      by_cases hk : k = sid
      · simp [appendEvent, hk, List.find?]
      · simp [appendEvent, hk, List.find?, ih]

set_option linter.unusedVariables false in
/-- C2: a `track_input_event` call on a password-like prompt reports
`pattern_updated = false` and `recorded = true` with a fresh event id,
leaves the pattern table untouched, and still appends the event to the
session's list with the literal `"[REDACTED]"` marker as its input text. -/
theorem claim_C2 (st : LearnerState) (now : Nat) (sid prompt input : String)
    (success : Bool) (src : InputSource) (rt : Nat)
    (hpw : isPasswordPrompt prompt = true) :
    (trackInputEvent st now sid prompt input success src rt).1.pattern_updated = false ∧
    (trackInputEvent st now sid prompt input success src rt).1.recorded = true ∧
    (trackInputEvent st now sid prompt input success src rt).1.event_id = st.nextEventId ∧
    (trackInputEvent st now sid prompt input success src rt).2.patterns = st.patterns ∧
    getSessionEvents (trackInputEvent st now sid prompt input success src rt).2 sid =
      getSessionEvents st sid ++
        [⟨st.nextEventId, sid, now, prompt, "[REDACTED]", success, src, rt⟩] ∧
    ((∀ s es, (s, es) ∈ st.events → ∀ e ∈ es, e.event_id < st.nextEventId) →
      ∀ s es, (s, es) ∈ st.events → ∀ e ∈ es,
        e.event_id ≠ (trackInputEvent st now sid prompt input success src rt).1.event_id) := by
  refine ⟨?_, ?_, ?_, ?_, ?_, ?_⟩
  · simp [trackInputEvent, hpw]
  · simp [trackInputEvent]
  · simp [trackInputEvent]
  · simp [trackInputEvent, hpw]
  · simp only [trackInputEvent, hpw, if_pos, getSessionEvents]
    rw [getSessionEvents_appendEvent]
    simp
  · intro hfresh s es hmem e he
    have hlt := hfresh s es hmem e he
    simp only [trackInputEvent]
    omega

/-- A learner state with one previously recorded event, for the C2 witness. -/
def c2state : LearnerState :=
  ⟨[("s1", [⟨0, "s1", 3, "Continue? (yes/no)", "yes", true, .USER_TYPED, 50⟩])], [], 1⟩

/-- Witness for C2 at the concrete prompt `"Enter password: "`. -/
theorem claim_C2_witness :
    (trackInputEvent c2state 7 "s1" "Enter password: " "hunter2" true .USER_TYPED 120).1.pattern_updated = false ∧
    (trackInputEvent c2state 7 "s1" "Enter password: " "hunter2" true .USER_TYPED 120).1.recorded = true ∧
    (trackInputEvent c2state 7 "s1" "Enter password: " "hunter2" true .USER_TYPED 120).1.event_id = c2state.nextEventId ∧
    (trackInputEvent c2state 7 "s1" "Enter password: " "hunter2" true .USER_TYPED 120).2.patterns = c2state.patterns ∧
    getSessionEvents (trackInputEvent c2state 7 "s1" "Enter password: " "hunter2" true .USER_TYPED 120).2 "s1" =
      getSessionEvents c2state "s1" ++
        [⟨c2state.nextEventId, "s1", 7, "Enter password: ", "[REDACTED]", true, .USER_TYPED, 120⟩] ∧
    ((∀ s es, (s, es) ∈ c2state.events → ∀ e ∈ es, e.event_id < c2state.nextEventId) →
      ∀ s es, (s, es) ∈ c2state.events → ∀ e ∈ es,
        e.event_id ≠ (trackInputEvent c2state 7 "s1" "Enter password: " "hunter2" true .USER_TYPED 120).1.event_id) :=
  claim_C2 c2state 7 "s1" "Enter password: " "hunter2" true .USER_TYPED 120 (by decide)

/-- C7: serializing a `Pattern` and deserializing it back preserves
`pattern_id`, `total_occurrences`, and the per-response `count` and
`success_count` of every response text. -/
theorem claim_C7 (p : Pattern) :
    (Pattern.from_dict (Pattern.to_dict p)).pattern_id = p.pattern_id ∧
    (Pattern.from_dict (Pattern.to_dict p)).total_occurrences = p.total_occurrences ∧
    ∀ t : String, lookupResp (Pattern.from_dict (Pattern.to_dict p)).responses t =
      lookupResp p.responses t := by
  have hresp : (Pattern.from_dict (Pattern.to_dict p)).responses = p.responses := by
    simp only [Pattern.from_dict, Pattern.to_dict, List.map_map]
    have : ∀ rs : List (String × ResponseStats),
        rs.map ((fun e : String × Nat × Nat => (e.1, (⟨e.2.1, e.2.2⟩ : ResponseStats))) ∘
          (fun e : String × ResponseStats => (e.1, e.2.count, e.2.success_count))) = rs := by
      intro rs
      induction rs with
      | nil => rfl
      | cons e rest ih => cases e with | mk a b => cases b; simp [ih]
    exact this p.responses
  exact ⟨rfl, rfl, fun t => by rw [hresp]⟩

attribute [local semireducible] Rat.mul Rat.add

/-- The concrete detection returned for `"Enter password: "`. -/
def c3detection : PromptDetection :=
  ⟨"password:", mkRat 95 100, .PASSWORD, "password\\s*:", 0, false⟩

/-- C3: with the default `min_confidence` of 0.70, `detect` on
`"Enter password: "` returns a PASSWORD detection with confidence at least
0.90 (here 0.95, from the first table entry), never TEXT. -/
theorem claim_C3 :
    detect (mkRat 70 100) "Enter password: " 0 = some c3detection ∧
    c3detection.prompt_type = PromptType.PASSWORD ∧
    mkRat 90 100 ≤ c3detection.confidence ∧
    c3detection.prompt_type ≠ PromptType.TEXT := by
  refine ⟨by decide, by decide, by decide, by decide⟩

/-- The Scenario B content. -/
def c4content : String := "WARNING: This will delete all data!\nContinue? (yes/no): "

/-- C4: Scenario B — `detect` classifies the content as YES_NO, and
`infer_inputs` on that text (with no learned pattern) returns exactly the
two suggestions `"no"` (0.85) before `"yes"` (0.60), plus a warning whose
text contains the word "dangerous" (matching the repository's own
case-insensitive check of the warning text). -/
theorem claim_C4 :
    (detect (mkRat 70 100) c4content 0).map (·.prompt_type) = some PromptType.YES_NO ∧
    (inferInputs [] c4content PromptType.YES_NO none).1 =
      [⟨"no", mkRat 85 100, "default",
        "Recommended: Dangerous operation detected. Saying \x27no\x27 is the safer choice."⟩,
       ⟨"yes", mkRat 60 100, "default",
        "⚠️  Proceed with caution: This will execute a potentially dangerous operation."⟩] ∧
    ((inferInputs [] c4content PromptType.YES_NO none).2.any
      (fun w => containsSub (lowerStr w) "dangerous")) = true := by
  refine ⟨by decide, by decide, by decide⟩

/-- The Scenario C prompt. -/
def c5prompt : String := "Restart service? (yes/no)"

/-- Scenario C call sequence: `"no"` five times (success) and `"yes"` once
(success). -/
def c5calls : List TrackCall :=
  [⟨1, "s1", "Restart service? (yes/no)", "no", true, .USER_TYPED, 100⟩,
   ⟨2, "s1", "Restart service? (yes/no)", "no", true, .USER_TYPED, 100⟩,
   ⟨3, "s1", "Restart service? (yes/no)", "no", true, .USER_TYPED, 100⟩,
   ⟨4, "s1", "Restart service? (yes/no)", "no", true, .USER_TYPED, 100⟩,
   ⟨5, "s1", "Restart service? (yes/no)", "no", true, .USER_TYPED, 100⟩,
   ⟨6, "s1", "Restart service? (yes/no)", "yes", true, .USER_TYPED, 100⟩]

/-- The learner state after Scenario C tracking. -/
def c5state : LearnerState := runCalls emptyLearner c5calls

set_option maxHeartbeats 4000000 in
/-- C5: after the Scenario C tracking, `infer_inputs` on the exact prompt
yields the `"no"` suggestion (source `pattern_learning`, confidence
`0.70*(5/6) + 0.30*1 = 53/60`) strictly above the `"yes"` suggestion
(`0.70*(1/6) + 0.30*1 = 5/12`); no boost applies since 6 < 10. -/
theorem claim_C5 :
    (inferInputs c5state.patterns c5prompt PromptType.YES_NO none).1 =
      [⟨"no", mkRat 53 60, "pattern_learning",
        "Learned from pattern: used 5/6 times (83%), 100% success rate"⟩,
       ⟨"yes", mkRat 5 12, "pattern_learning",
        "Learned from pattern: used 1/6 times (17%), 100% success rate"⟩] ∧
    mkRat 5 12 < mkRat 53 60 := by
  have h : c5state.patterns =
      [(generatePatternId c5prompt,
        ⟨generatePatternId c5prompt, c5prompt, [("no", ⟨5, 5⟩), ("yes", ⟨1, 1⟩)], 6, 6, 1⟩)] := by
    decide
  rw [h]
  refine ⟨by decide, by decide⟩

/-- The storage-directory listing for C6: the aggregate `patterns.json` blob
(a direct child of `STORAGE_DIR`, 8 days old) next to the `history`
subdirectory. -/
def c6entries : List DirEntry :=
  [⟨"patterns.json", true, 0, 120⟩, ⟨"history", false, 0, 0⟩]

/-- C6 (divergence witness): the `cleanup_old_sessions` MCP tool runs
`storage.cleanup_old_sessions` over `STORAGE_DIR`, which has no exemption
for the aggregate pattern blob: an 8-day-old `patterns.json` under a 7-day
retention is listed among the deleted files (and removed when `dry_run` is
false) — in both dry-run and real mode — whereas the unused
`storage.cleanup_old_files` helper does exempt it. -/
theorem claim_C6 :
    cleanupOldSessionsTool c6entries 691200 7 false =
      .ok ⟨["patterns.json"], 1, 120, false⟩ ∧
    cleanupOldSessionsTool c6entries 691200 7 true =
      .ok ⟨["patterns.json"], 1, 120, true⟩ ∧
    cleanupSessionsRemaining c6entries 691200 7 false = [⟨"history", false, 0, 0⟩] ∧
    (cleanup_old_files [⟨"/tmp/ssk-sessions/patterns.json", true, 0, 120⟩] 691200 7 false).1
      = [] := by
  refine ⟨rfl, rfl, by decide, by decide⟩

/-- C8: a `get_updates` call on a session whose log file is missing fails
with `FileNotFoundError`; one whose log file exists but is unreadable fails
with `PermissionError`; in both cases the owning session's state flips to
STOPPED. -/
theorem claim_C8 (fs : FileSys) (s : Session) :
    (fs s.log_file = none →
      getUpdates fs s = (.error .FileNotFoundError, { s with state := .STOPPED })) ∧
    (∀ fi, fs s.log_file = some fi → fi.readable = false →
      getUpdates fs s = (.error .PermissionError, { s with state := .STOPPED })) := by
  constructor
  · intro h
    simp [getUpdates, read_from_position, h]
  · intro fi h hr
    simp [getUpdates, read_from_position, h, hr]

/-- A concrete session for the C8 witness. -/
def c8session : Session := ⟨"sess-1", "/tmp/session.log", 0, .ACTIVE⟩

/-- A filesystem with no files. -/
def c8fsMissing : FileSys := fun _ => none

/-- A filesystem where every path is an unreadable file. -/
def c8fsUnreadable : FileSys := fun _ => some ⟨false, []⟩

/-- Witness for C8: both failure modes at concrete inputs. -/
theorem claim_C8_witness :
    getUpdates c8fsMissing c8session =
      (.error .FileNotFoundError, { c8session with state := .STOPPED }) ∧
    getUpdates c8fsUnreadable c8session =
      (.error .PermissionError, { c8session with state := .STOPPED }) :=
  ⟨(claim_C8 c8fsMissing c8session).1 rfl,
   (claim_C8 c8fsUnreadable c8session).2 ⟨false, []⟩ rfl rfl⟩

/-- The fixed base-confidence set of the detector's pattern table. -/
def detectorConfidences : List ℚ :=
  [mkRat 95 100, mkRat 92 100, mkRat 90 100, mkRat 88 100, mkRat 85 100,
   mkRat 82 100, mkRat 75 100]

/-- A successful `detectLoop` result carries the confidence of some table
entry whose confidence clears the threshold. -/
theorem detectLoop_mem (minConf : ℚ) (recent : List Char) (filePos : Nat) :
    ∀ (pats : List PromptPatternE) (d : PromptDetection),
      detectLoop minConf recent filePos pats = some d →
      ∃ p ∈ pats, d.confidence = p.confidence ∧ minConf ≤ p.confidence := by
  intro pats
  induction pats with
  | nil => intro d h; simp [detectLoop] at h
  | cons p ps ih =>
    intro d h
    simp only [detectLoop] at h
    split at h
    · split at h
      · rw [Option.some.injEq] at h
        rename_i hc
        exact ⟨p, List.mem_cons_self _ _, by rw [← h], hc⟩
      · obtain ⟨q, hq, he⟩ := ih d h
        exact ⟨q, List.mem_cons_of_mem _ hq, he⟩
    · obtain ⟨q, hq, he⟩ := ih d h
      exact ⟨q, List.mem_cons_of_mem _ hq, he⟩

/-- When the threshold exceeds every table confidence, `detectLoop` finds
nothing. -/
theorem detectLoop_none (minConf : ℚ) (recent : List Char) (filePos : Nat) :
    ∀ pats : List PromptPatternE,
      (∀ p ∈ pats, p.confidence ≤ mkRat 95 100) → mkRat 95 100 < minConf →
      detectLoop minConf recent filePos pats = none := by
  intro pats
  induction pats with
  | nil => intro _ _; rfl
  | cons p ps ih =>
    intro hall hlt
    have hp : p.confidence ≤ mkRat 95 100 := hall p (List.mem_cons_self _ _)
    have hnc : ¬minConf ≤ p.confidence := not_le.mpr (lt_of_le_of_lt hp hlt)
    simp only [detectLoop]
    split
    · rw [if_neg hnc]
      exact ih (fun q hq => hall q (List.mem_cons_of_mem _ hq)) hlt
    · exact ih (fun q hq => hall q (List.mem_cons_of_mem _ hq)) hlt

/-- Every entry of `PROMPT_PATTERNS` has a confidence from the fixed set,
and none exceeds 0.95. -/
theorem promptPatternsConf :
    ∀ p ∈ PROMPT_PATTERNS, p.confidence ∈ detectorConfidences ∧
      p.confidence ≤ mkRat 95 100 := by
  intro p hp
  fin_cases hp <;> exact ⟨by decide, by decide⟩

/-- C9: every detection returned by `detect` has a confidence drawn from the
table's base-confidence set with `min_confidence ≤ confidence ≤ 0.95`, and a
threshold strictly above 0.95 makes `detect` return `none` on every
content. -/
theorem claim_C9 (minConf : ℚ) (content : String) (pos : Nat) :
    (∀ d, detect minConf content pos = some d →
      d.confidence ∈ detectorConfidences ∧ minConf ≤ d.confidence ∧
        d.confidence ≤ mkRat 95 100) ∧
    (mkRat 95 100 < minConf → detect minConf content pos = none) := by
  constructor
  · intro d hd
    simp only [detect] at hd
    by_cases hc : content.data = []
    · simp [hc] at hd
    · rw [if_neg hc] at hd
      obtain ⟨p, hp, he, hle⟩ := detectLoop_mem _ _ _ PROMPT_PATTERNS d hd
      obtain ⟨hmem, h95⟩ := promptPatternsConf p hp
      exact ⟨he ▸ hmem, he ▸ hle, he ▸ h95⟩
  · intro hlt
    simp only [detect]
    by_cases hc : content.data = []
    · simp [hc]
    · rw [if_neg hc]
      exact detectLoop_none _ _ _ PROMPT_PATTERNS
        (fun p hp => (promptPatternsConf p hp).2) hlt

/-- Witness for C9: the bound at the concrete 0.70-threshold detection of
`"Enter password: "`, and `none` at threshold 0.96. -/
theorem claim_C9_witness :
    (c3detection.confidence ∈ detectorConfidences ∧
      mkRat 70 100 ≤ c3detection.confidence ∧
      c3detection.confidence ≤ mkRat 95 100) ∧
    detect (mkRat 96 100) "Enter password: " 0 = none :=
  ⟨(claim_C9 (mkRat 70 100) "Enter password: " 0).1 c3detection (by decide),
   (claim_C9 (mkRat 96 100) "Enter password: " 0).2 (by decide)⟩

/-- Membership through the stable descending insertion. -/
theorem mem_insertRespDesc (x z : String × ResponseStats)
    (l : List (String × ResponseStats)) :
    z ∈ insertRespDesc x l ↔ z = x ∨ z ∈ l := by
  induction l with
  | nil => simp [insertRespDesc]
  | cons y ys ih =>
    by_cases hc : x.2.count < y.2.count
    · rw [insertRespDesc, if_pos hc, List.mem_cons, ih, List.mem_cons]
      tauto
    · rw [insertRespDesc, if_neg hc, List.mem_cons, List.mem_cons]

/-- Membership through the stable descending sort. -/
theorem mem_sortRespDesc (z : String × ResponseStats) (l : List (String × ResponseStats)) :
    z ∈ sortRespDesc l ↔ z ∈ l := by
  induction l with
  | nil => simp [sortRespDesc]
  | cons y ys ih =>
    simp only [sortRespDesc, mem_insertRespDesc, List.mem_cons, ih]

/-- Inserting into a descending-by-count list keeps it descending. -/
theorem pairwise_insertRespDesc (x : String × ResponseStats)
    (l : List (String × ResponseStats))
    (h : l.Pairwise (fun a b => b.2.count ≤ a.2.count)) :
    (insertRespDesc x l).Pairwise (fun a b => b.2.count ≤ a.2.count) := by
  induction l with
  | nil => simp [insertRespDesc]
  | cons y ys ih =>
    rw [List.pairwise_cons] at h
    obtain ⟨hy, hys⟩ := h
    by_cases hc : x.2.count < y.2.count
    · simp only [insertRespDesc, if_pos hc]
      rw [List.pairwise_cons]
      refine ⟨?_, ih hys⟩
      intro z hz
      rcases (mem_insertRespDesc x z ys).1 hz with rfl | hzys
      · exact Nat.le_of_lt hc
      · exact hy z hzys
    · simp only [insertRespDesc, if_neg hc]
      rw [List.pairwise_cons]
      refine ⟨?_, List.pairwise_cons.mpr ⟨hy, hys⟩⟩
      intro z hz
      rcases List.mem_cons.1 hz with rfl | hzys
      · exact Nat.le_of_not_lt hc
      · exact Nat.le_trans (hy z hzys) (Nat.le_of_not_lt hc)

/-- The sorted responses list is descending by count. -/
theorem sortRespDesc_pairwise (l : List (String × ResponseStats)) :
    (sortRespDesc l).Pairwise (fun a b => b.2.count ≤ a.2.count) := by
  induction l with
  | nil => simp [sortRespDesc]
  | cons y ys ih => exact pairwise_insertRespDesc y (sortRespDesc ys) ih

/-- A response whose count strictly dominates every other response is the
head of the sorted list. -/
theorem sortRespDesc_head_max (l : List (String × ResponseStats)) (t : String)
    (s : ResponseStats) (hmem : (t, s) ∈ l)
    (hmax : ∀ e ∈ l, e ≠ (t, s) → e.2.count < s.count) :
    ∃ rest, sortRespDesc l = (t, s) :: rest := by
  cases hsort : sortRespDesc l with
  | nil =>
    exfalso
    have : (t, s) ∈ sortRespDesc l := (mem_sortRespDesc _ _).2 hmem
    rw [hsort] at this
    simp at this
  | cons hd tl =>
    by_cases heq : hd = (t, s)
    · exact ⟨tl, by rw [heq]⟩
    · exfalso
      have hhd : hd ∈ l := by
        have : hd ∈ sortRespDesc l := by rw [hsort]; exact List.mem_cons_self _ _
        exact (mem_sortRespDesc _ _).1 this
      have hlt := hmax hd hhd heq
      have hmem' : (t, s) ∈ hd :: tl := by
        rw [← hsort]; exact (mem_sortRespDesc _ _).2 hmem
      rcases List.mem_cons.1 hmem' with h1 | h2
      · exact heq h1.symm
      · have hp := sortRespDesc_pairwise l
        rw [hsort, List.pairwise_cons] at hp
        have hle := hp.1 (t, s) h2
        simp only at hle
        omega

set_option linter.unusedVariables false in
/-- C10: when the learner holds a pattern for the looked-up prompt (with a
positive `total_occurrences`, so the Python division is defined), the
pattern-derived suggestions are built from the responses sorted
non-increasingly by count, and a response whose count strictly dominates
every other response heads the merged suggestion list of `infer_inputs`,
with source `pattern_learning`. -/
theorem claim_C10 (patterns : List (String × Pattern)) (prompt : String)
    (ptype : PromptType) (ctx : Option SessionContext) (pat : Pattern)
    (t : String) (s : ResponseStats)
    (hlook : getPatternByPrompt patterns prompt = some pat)
    (htot : 0 < pat.total_occurrences)
    (hmem : (t, s) ∈ pat.responses)
    (hmax : ∀ e ∈ pat.responses, e ≠ (t, s) → e.2.count < s.count) :
    (sortRespDesc pat.responses).Pairwise (fun a b => b.2.count ≤ a.2.count) ∧
    (∃ rest, (inferInputs patterns prompt ptype ctx).1 =
      mkPatternSuggestion pat.total_occurrences (t, s) :: rest) ∧
    (mkPatternSuggestion pat.total_occurrences (t, s)).input_text = t ∧
    (mkPatternSuggestion pat.total_occurrences (t, s)).source = "pattern_learning" := by
  obtain ⟨tail, hsort⟩ := sortRespDesc_head_max pat.responses t s hmem hmax
  refine ⟨sortRespDesc_pairwise _, ?_, rfl, rfl⟩
  cases ptype <;>
    simp only [inferInputs, getPatternSuggestions, hlook, hsort, List.map_cons,
      mergeSuggestions, List.cons_append] <;>
    exact ⟨_, rfl⟩

/-- The concrete pattern for the C10 witness. -/
def c10pat : Pattern :=
  ⟨generatePatternId "p", "p", [("no", ⟨5, 5⟩), ("yes", ⟨1, 1⟩)], 6, 6, 1⟩

/-- The concrete one-entry pattern table for the C10 witness. -/
def c10patterns : List (String × Pattern) := [(generatePatternId "p", c10pat)]

/-- Witness for C10 at a concrete two-response pattern. -/
theorem claim_C10_witness :
    (sortRespDesc c10pat.responses).Pairwise (fun a b => b.2.count ≤ a.2.count) ∧
    (∃ rest, (inferInputs c10patterns "p" PromptType.YES_NO none).1 =
      mkPatternSuggestion c10pat.total_occurrences ("no", ⟨5, 5⟩) :: rest) ∧
    (mkPatternSuggestion c10pat.total_occurrences ("no", ⟨5, 5⟩)).input_text = "no" ∧
    (mkPatternSuggestion c10pat.total_occurrences ("no", ⟨5, 5⟩)).source = "pattern_learning" :=
  claim_C10 c10patterns "p" PromptType.YES_NO none c10pat "no" ⟨5, 5⟩
    (by decide) (by decide) (by decide) (by decide)
